import Mathlib

/-!
Verification development for the audio-player widget repository
(`src/src/AudioPlayer.ts`).

The development shallowly embeds the two components of the code:

* `AudioPlayer` (here `Player`): a wrapper around an HTML audio element with
  `play` (including the NotAllowedError retry loop), `stop`, `pause`,
  `rewind`, `setVolume` (clamped to [0,1]), a single-slot end-of-playback
  callback installed by `registerOnEndCallback`, the `ended`-event listener
  installed by the constructor, and `destroy`.
* `AudioPlayerWidget` (here `WState` plus the `widgetPlay`, `widgetStop`,
  `playAsPlaylist` operations): a collection of players addressed by id,
  and the playlist sequencer `playAsPlaylist` whose closure-captured
  `currentIndex` cursor is modelled by the `runs` field (one cursor per
  invocation of `playAsPlaylist`, since each invocation creates a fresh
  closure).

JavaScript numbers are modelled by `ℚ` (the volume clamp uses only
`min`/`max`, which agree with the float semantics on representable inputs).
External effects are made visible as data: `haptic.triggerAction`
notifications and `play()` invocations are appended to an `events` trace,
and `console.warn` / `console.error` / `AnalyticsHelper.error` diagnostics
are appended to a `logs` trace (purely informational `AnalyticsHelper.debug`
traces are omitted).  A thrown exception is modelled by a `Bool` flag
(`true` = the operation threw) on the operations that can throw.
-/

/-- Kinds of haptic trigger notifications and player invocations recorded in
the event trace of the widget model. -/
inductive Ev where
  | triggerStarted (id : String)
  | triggerEnded (id : String)
  | playInvoked (id : String) (loop : Bool)
  | cbInvoked (id : String)
deriving DecidableEq, Repr

/-- Diagnostics recorded by the model: `console.warn('Playback blocked, retrying...')`,
`console.error('Audio playback failed:')`, `console.error('Audio onEnd callback failed:')`
and `AnalyticsHelper.error('No audio player found with ID')`. -/
inductive Log where
  | warnBlocked
  | errPlayback
  | errCallback
  | errNoPlayer (id : String)
deriving DecidableEq, Repr

/-- Semantic representation of the closures that the repository stores in the
single `onEndCallback` slot: the callback registered by the widget during
source setup (`() => haptic.triggerAction('widget-audio-player-audio-ended-' + source.id)`),
the advancement closure registered by `playAsPlaylist` (capturing the run whose
`currentIndex` it increments), and an arbitrary user callback that either
returns normally or throws (used to settle the containment claims). -/
inductive Cb where
  | triggerEnded (srcId : String)
  | advance (run : Nat)
  | user (throws : Bool)
deriving DecidableEq, Repr

/-- Model of the `HTMLAudioElement` fields the code reads or writes:
`src`, `volume`, `loop`, `paused` (toggled by `play`/`pause`) and
`currentTime`. -/
structure AudioElem where
  src : String
  volume : ℚ
  loop : Bool
  paused : Bool
  currentTime : ℚ
deriving DecidableEq, Repr

/-- Model of the `AudioPlayer` class state: `id`, the `playing` flag, the
owned audio element, and the optional single-slot end callback. -/
structure Player where
  id : String
  playing : Bool
  audio : AudioElem
  onEndCallback : Option Cb
deriving DecidableEq, Repr

/-- `AudioSourceType` from the widget: file asset or direct URL. -/
inductive AudioSourceType where
  | fileAsset
  | url
deriving DecidableEq, Repr

/-- `AudioSource` configuration record from the widget settings. -/
structure AudioSource where
  type : AudioSourceType
  id : String
  fileId : Option String := none
  url : Option String := none
  volume : Option ℚ := none
deriving DecidableEq, Repr

/-- State of the `AudioPlayerWidget` model: the shared `sources` setting, the
managed `players`, one playlist cursor per `playAsPlaylist` invocation
(each invocation's closure-local `currentIndex`), and the observable event
and diagnostic traces. -/
structure WState where
  sources : List AudioSource
  players : List Player
  runs : List Nat
  events : List Ev
  logs : List Log
deriving DecidableEq, Repr

/-- `clampVolume` from `AudioPlayer`: `Math.min(1, Math.max(0, volume))`. -/
def clampVolume (volume : ℚ) : ℚ := min 1 (max 0 volume)

/-- The `AudioPlayer` constructor: `new Audio(url)` (paused, position 0, not
looping), volume set to the clamped initial volume, no end callback, empty
`id`.  The `ended`-event listener the constructor installs is modelled by
`endedEvent` below. -/
def mkAudioPlayer (url : String) (volume : ℚ) : Player :=
  { id := "",
    playing := false,
    audio := { src := url, volume := clampVolume volume, loop := false,
               paused := true, currentTime := 0 },
    onEndCallback := none }

/-- `AudioPlayer.rewind`: `audio.currentTime = 0`, nothing else. -/
def Player.rewind (p : Player) : Player :=
  { p with audio := { p.audio with currentTime := 0 } }

/-- `AudioPlayer.stop`: `audio.pause(); audio.currentTime = 0; playing = false`. -/
def Player.stop (p : Player) : Player :=
  { p with playing := false,
           audio := { p.audio with paused := true, currentTime := 0 } }

/-- `AudioPlayer.pause`: `audio.pause()` only; `playing` is not modified. -/
def Player.pause (p : Player) : Player :=
  { p with audio := { p.audio with paused := true } }

/-- `AudioPlayer.setVolume`: `audio.volume = clampVolume(volume)`. -/
def Player.setVolume (p : Player) (volume : ℚ) : Player :=
  { p with audio := { p.audio with volume := clampVolume volume } }

/-- `AudioPlayer.registerOnEndCallback`: overwrite the single callback slot. -/
def Player.registerOnEndCallback (p : Player) (callback : Cb) : Player :=
  { p with onEndCallback := some callback }

/-- `AudioPlayer.destroy`: `playing = false`, callback slot cleared,
`audio.volume = 0`, `audio.pause()`, `audio.src = ''` and `audio.load()`
(which resets the playback position).  The `loop` attribute is not touched
by `destroy`. -/
def Player.destroy (p : Player) : Player :=
  { p with playing := false,
           onEndCallback := none,
           audio := { p.audio with
                      volume := 0, paused := true, src := "", currentTime := 0 } }

/-- Synchronous effect of `AudioPlayer.play(loop)` on the player fields when
the underlying `audio.play()` attempt succeeds: `audio.loop = loop`,
`playing = true`, and the element leaves the paused state.  The asynchronous
retry/failure behaviour of the attempt itself is modelled separately by
`attemptPlay`. -/
def Player.startPlayback (p : Player) (loop : Bool) : Player :=
  { p with playing := true,
           audio := { p.audio with loop := loop, paused := false } }

/-- Outcome the platform gives one `audio.play()` attempt: fulfilled,
rejected with `NotAllowedError` (playback blocked), or rejected with any
other error. -/
inductive AttemptOutcome where
  | ok
  | blocked
  | failed
deriving DecidableEq, Repr

/-- How a `play()` completion resolved: playback started, playback was
abandoned after a non-retryable failure, the retry chain was aborted by an
external `stop`/`destroy` during a backoff, or the supplied outcome trace
ran out while the attempt was still in flight. -/
inductive Resolution where
  | started
  | abandoned
  | abortedByStop
  | pending
deriving DecidableEq, Repr

/-- Observable summary of one `play()` run: the final value of the `playing`
flag, how the completion resolved, how many `audio.play()` attempts were
made, how many 250 ms backoff waits elapsed, the diagnostics logged, and
whether the `playing` flag was `true` at every liveness observation point up
to and including resolution. -/
structure RunResult where
  playing : Bool
  resolution : Resolution
  attempts : Nat
  backoffs : Nat
  logs : List Log
  heldPlaying : Bool
deriving DecidableEq, Repr

/-- The recursive `attemptPlay` closure inside `AudioPlayer.play`.
`playing` is the value of `this.playing` seen by the liveness check (set to
`true` by `play` before the first attempt); `outs` supplies the platform
outcome of each successive `audio.play()` attempt; `stops j` tells whether an
external `stop()`/`destroy()` call (which sets `this.playing` to `false`)
lands during the backoff that follows attempt `j`.  A fulfilled attempt
resolves the completion; a `NotAllowedError` rejection logs a warning, waits
250 ms, rechecks `this.playing` and either returns silently (external stop)
or retries; any other rejection logs an error, clears `playing` and resolves.
All rejections are caught, so the function is total and never propagates a
fault. -/
def attemptPlay : Bool → List AttemptOutcome → List Bool → RunResult
  | playing, [], _ =>
      { playing := playing, resolution := .pending, attempts := 0,
        backoffs := 0, logs := [], heldPlaying := playing }
  | playing, .ok :: _, _ =>
      { playing := playing, resolution := .started, attempts := 1,
        backoffs := 0, logs := [], heldPlaying := playing }
  | _, .failed :: _, _ =>
      { playing := false, resolution := .abandoned, attempts := 1,
        backoffs := 0, logs := [.errPlayback], heldPlaying := false }
  | playing, .blocked :: outs, stops =>
      if stops.headD false then
        { playing := false, resolution := .abortedByStop, attempts := 1,
          backoffs := 1, logs := [.warnBlocked], heldPlaying := false }
      else
        let r := attemptPlay playing outs stops.tail
        { playing := r.playing, resolution := r.resolution,
          attempts := r.attempts + 1, backoffs := r.backoffs + 1,
          logs := .warnBlocked :: r.logs,
          heldPlaying := playing && r.heldPlaying }

/-- `AudioPlayer.play(loop)` as a whole: it sets `audio.loop = loop` and
`this.playing = true`, then awaits `attemptPlay()`; the result pairs the
summary of the run with the final player fields. -/
def Player.play (p : Player) (loop : Bool) (outs : List AttemptOutcome)
    (stops : List Bool) : Player × RunResult :=
  let r := attemptPlay true outs stops
  ({ p with playing := r.playing,
            audio := { p.audio with
                       loop := loop, paused := !(r.resolution = .started) } }, r)

/-- Cursor normalization at the top of `playNext`:
`if (currentIndex >= this.players.length) currentIndex = 0`. -/
def wrapCursor (n c : Nat) : Nat := if n ≤ c then 0 else c

/-- One step of the cursor-driven body of `playAsPlaylist` (the `playNext`
closure of run `r`): wrap the run's `currentIndex` to 0 once it has reached
`players.length`, select the player at the cursor, overwrite its end callback
with the advancement closure of run `r`, emit the `audio-started` trigger for
it, and invoke `play()` on it (non-looping).  When the players collection is
empty the selection yields `undefined` and the call to
`registerOnEndCallback` on it throws a TypeError, modelled by the `true`
flag (the wrap of the cursor has already happened at that point). -/
def playNext (r : Nat) (s : WState) : WState × Bool :=
  let c1 := wrapCursor s.players.length (s.runs.getD r 0)
  let s1 : WState := { s with runs := s.runs.set r c1 }
  match s1.players[c1]? with
  | none => (s1, true)
  | some p =>
      let s2 : WState :=
        { s1 with players := s1.players.set c1 (p.registerOnEndCallback (.advance r)) }
      let s3 : WState := { s2 with events := s2.events ++ [.triggerStarted p.id] }
      ({ s3 with
          players := s3.players.set c1
            ((p.registerOnEndCallback (.advance r)).startPlayback false),
          events := s3.events ++ [.playInvoked p.id false] }, false)

/-- `AudioPlayerWidget.playAsPlaylist`: return immediately when the shared
`sources` list is empty (the guard tests `sources`, not `players`); otherwise
create a fresh run with its closure-local `currentIndex = 0` and call its
`playNext`. -/
def playAsPlaylist (s : WState) : WState × Bool :=
  if s.sources.isEmpty then (s, false)
  else playNext s.runs.length { s with runs := s.runs ++ [0] }

/-- Behaviour of the closure stored in a callback slot when the `ended`
listener invokes it.  `pid` is the id of the player the slot belongs to
(captured by the closures the repository registers).  Returns the resulting
state and whether the closure threw. -/
def runCb (cb : Cb) (pid : String) (s : WState) : WState × Bool :=
  match cb with
  | .triggerEnded srcId =>
      ({ s with events := s.events ++ [.triggerEnded srcId] }, false)
  | .user throws =>
      ({ s with events := s.events ++ [.cbInvoked pid] }, throws)
  | .advance r =>
      let s1 : WState := { s with events := s.events ++ [.triggerEnded pid] }
      let s2 : WState := { s1 with runs := s1.runs.set r (s1.runs.getD r 0 + 1) }
      playNext r s2

/-- The `ended`-event listener installed by the `AudioPlayer` constructor,
delivered to the player at index `i`: ignore the event when `playing` is
already `false`, otherwise clear `playing` first and then invoke the
registered callback (if any) inside `try/catch`, logging and swallowing any
fault it raises.  The listener itself therefore never throws. -/
def endedEvent (i : Nat) (s : WState) : WState :=
  match s.players[i]? with
  | none => s
  | some p =>
      if p.playing then
        let s1 : WState := { s with players := s.players.set i { p with playing := false } }
        match p.onEndCallback with
        | none => s1
        | some cb =>
            let r := runCb cb p.id s1
            if r.2 then { r.1 with logs := r.1.logs ++ [.errCallback] } else r.1
      else s

/-- `AudioPlayerWidget.play(id, loop)`: find the first player with the given
id; when none exists, log the `AnalyticsHelper.error` diagnostic and return;
otherwise rewind it if it is already playing and invoke `play(loop)` on it
(success-path field effects, the attempt semantics being `attemptPlay`). -/
def widgetPlay (id : String) (loop : Bool) (s : WState) : WState :=
  match s.players.findIdx? (fun p => p.id == id) with
  | none => { s with logs := s.logs ++ [.errNoPlayer id] }
  | some i =>
      match s.players[i]? with
      | none => s
      | some p =>
          let p1 := if p.playing then p.rewind else p
          { s with players := s.players.set i (p1.startPlayback loop),
                   events := s.events ++ [.playInvoked id loop] }

/-- `AudioPlayerWidget.stop(id)`: find the first player with the given id;
when none exists, log the diagnostic and return; otherwise call `stop()` on
it. -/
def widgetStop (id : String) (s : WState) : WState :=
  match s.players.findIdx? (fun p => p.id == id) with
  | none => { s with logs := s.logs ++ [.errNoPlayer id] }
  | some i =>
      match s.players[i]? with
      | none => s
      | some p => { s with players := s.players.set i p.stop }

/-- Widget state as it stands after the players have been built from the
configured sources and before any playlist has been started: no runs, no
events, no diagnostics. -/
def initialState (sources : List AudioSource) (players : List Player) : WState :=
  { sources := sources, players := players, runs := [], events := [], logs := [] }

/-- Deliver `k` successive natural end-of-resource events, each to the unit
the cursor of run 0 currently points at. -/
def driveEnds : Nat → WState → WState
  | 0, s => s
  | k + 1, s => driveEnds k (endedEvent (s.runs.getD 0 0) s)

/-- Expected event trace of a playlist over units with the given ids after
the start plus `k` natural ends: the cyclic pattern
started(u 0), play(u 0), ended(u 0), started(u 1), play(u 1), ended(u 1), …
with every `play` non-looping. -/
def cycleEvents (ids : List String) : Nat → List Ev
  | 0 => [.triggerStarted (ids.getD 0 ""), .playInvoked (ids.getD 0 "") false]
  | k + 1 =>
      cycleEvents ids k ++
        [.triggerEnded (ids.getD (k % ids.length) ""),
         .triggerStarted (ids.getD ((k + 1) % ids.length) ""),
         .playInvoked (ids.getD ((k + 1) % ids.length) "") false]

/-- Invariant of a single-run playlist over the initial unit collection
`ps`, holding after the start plus `k` natural end events: the number and
the ids of the players are unchanged, the single run cursor equals
`k % ps.length`, the event trace is the cyclic
started/play/ended pattern, and the unit at the cursor is playing with the
advancement closure of run 0 armed. -/
def seqInv (ps : List Player) (k : Nat) (s : WState) : Prop :=
  s.players.length = ps.length ∧
  (∀ i : Nat, (s.players[i]?).map Player.id = (ps[i]?).map Player.id) ∧
  s.runs = [k % ps.length] ∧
  s.events = cycleEvents (ps.map Player.id) k ∧
  ∃ q, s.players[k % ps.length]? = some q ∧ q.playing = true ∧
    q.onEndCallback = some (.advance 0) ∧
    q.id = (ps.map Player.id).getD (k % ps.length) ""

/-- State passed by `playAsPlaylist (initialState srcs ps)` to the first
`playNext` call: the fresh run's cursor 0 has been appended to the (empty)
run list. -/
def startState (srcs : List AudioSource) (ps : List Player) : WState :=
  { sources := srcs, players := ps, runs := [0], events := [], logs := [] }

/-- Concrete audio element used by the concrete-instance theorems. -/
def sampleAudio : AudioElem :=
  { src := "https://example.com/a.mp3", volume := 1, loop := false,
    paused := true, currentTime := 0 }

/-- Concrete player used by the concrete-instance theorems. -/
def samplePlayer (id : String) (playing : Bool) (cb : Option Cb) : Player :=
  { id := id, playing := playing, audio := sampleAudio, onEndCallback := cb }

/-- Concrete URL source used by the concrete-instance theorems. -/
def sampleSource (id : String) : AudioSource :=
  { type := .url, id := id, url := some "https://example.com/a.mp3" }

/-- C9: for every input v, `setVolume(v)` stores volume `min(1, max(0, v))`
(in particular -0.5 stores 0, 1.7 stores 1, 0.42 stores 0.42), and the
constructor applies the same clamp to the initial volume. -/
theorem claim_c9_volume_clamp (p : Player) (v : ℚ) (url : String) :
    (p.setVolume v).audio.volume = min 1 (max 0 v) ∧
    (mkAudioPlayer url v).audio.volume = min 1 (max 0 v) ∧
    (p.setVolume (-(1/2))).audio.volume = 0 ∧
    (p.setVolume (17/10)).audio.volume = 1 ∧
    (p.setVolume (21/50)).audio.volume = 21/50 := by
  refine ⟨rfl, rfl, ?_, ?_, ?_⟩ <;>
    simp [Player.setVolume, clampVolume, mkAudioPlayer] <;> norm_num

/-- C6: a `play()` attempt rejected with any error other than
`NotAllowedError` abandons playback: the `playing` flag is cleared, the
failure is logged, no further attempt and no backoff happen, and the
completion resolves (as `abandoned`) without propagating a fault — the
model of the attempt loop is a total function because every rejection is
caught. -/
theorem claim_c6_nonretryable_abandons (b : Bool) (outs : List AttemptOutcome)
    (stops : List Bool) :
    attemptPlay b (.failed :: outs) stops =
      { playing := false, resolution := .abandoned, attempts := 1,
        backoffs := 0, logs := [.errPlayback], heldPlaying := false } := rfl

/-- C3: when the first two attempts are rejected with `NotAllowedError` and
the third is fulfilled, with no intervening stop, `play()` resolves as
started after exactly two 250 ms backoffs and three attempts, with the
`playing` flag true at every observation point and at resolution. -/
theorem claim_c3_retry_termination (rest : List AttemptOutcome)
    (stops : List Bool) :
    attemptPlay true (.blocked :: .blocked :: .ok :: rest)
        (false :: false :: stops) =
      { playing := true, resolution := .started, attempts := 3,
        backoffs := 2, logs := [.warnBlocked, .warnBlocked],
        heldPlaying := true } := rfl

/-- C7 counterexample: `setVolume` on a destroyed player does have an
observable effect on the unit's state — it overwrites the silenced volume —
so "after destroy() every operation has no observable effect" fails as
stated. -/
theorem claim_c7_counterexample :
    Player.setVolume (Player.destroy (mkAudioPlayer "u" 1)) (1/2) ≠
      Player.destroy (mkAudioPlayer "u" 1) := by
  intro h
  have hv := congrArg (fun q => q.audio.volume) h
  simp [Player.setVolume, Player.destroy, mkAudioPlayer, clampVolume] at hv
  norm_num at hv

/-- C7 (amended): `destroy()` is idempotent and leaves the terminal state
(`playing` false, callback cleared, volume 0, source cleared); after it,
`stop`, `pause`, `rewind` and `destroy` raise no fault and leave the state
unchanged, while `setVolume` and `registerOnEndCallback` raise no fault but
do update the stored volume and the callback slot as in the normal state
(there is no destroyed guard in the class). -/
theorem claim_c7_destroy_idempotent (p : Player) (v : ℚ) (cb : Cb) :
    p.destroy.destroy = p.destroy ∧
    p.destroy.stop = p.destroy ∧
    p.destroy.pause = p.destroy ∧
    p.destroy.rewind = p.destroy ∧
    p.destroy.setVolume v =
      { p.destroy with audio := { p.destroy.audio with volume := clampVolume v } } ∧
    p.destroy.registerOnEndCallback cb =
      { p.destroy with onEndCallback := some cb } ∧
    p.destroy.playing = false ∧
    p.destroy.onEndCallback = none ∧
    p.destroy.audio.volume = 0 ∧
    p.destroy.audio.src = "" :=
  ⟨rfl, rfl, rfl, rfl, rfl, rfl, rfl, rfl, rfl, rfl⟩

theorem list_set_length_self {α : Type} (l : List α) (x : α) :
    l.set l.length x = l := by
  induction l with
  | nil => rfl
  | cons a as ih => simpa [List.set] using ih

theorem wrapCursor_zero (n : Nat) : wrapCursor n 0 = 0 := ite_self 0

theorem wrapCursor_mod (n k : Nat) (hn : 0 < n) :
    wrapCursor n (k % n + 1) = (k + 1) % n := by
  unfold wrapCursor
  have hk : k % n < n := Nat.mod_lt k hn
  by_cases hc : n ≤ k % n + 1
  · have he : k % n + 1 = n := Nat.le_antisymm (Nat.succ_le_of_lt hk) hc
    rw [if_pos hc, ← Nat.mod_add_mod, he, Nat.mod_self]
  · rw [if_neg hc, ← Nat.mod_add_mod]
    exact (Nat.mod_eq_of_lt (Nat.lt_of_not_le hc)).symm

theorem playNext_eq_none (r : Nat) (s : WState)
    (h : s.players[wrapCursor s.players.length (s.runs.getD r 0)]? = none) :
    playNext r s =
      ({ s with
          runs := s.runs.set r (wrapCursor s.players.length (s.runs.getD r 0)) },
       true) := by
  unfold playNext
  simp only [List.getD_eq_getElem?_getD] at h
  simp [h]

theorem playNext_eq_some (r : Nat) (s : WState) (p : Player)
    (h : s.players[wrapCursor s.players.length (s.runs.getD r 0)]? = some p) :
    playNext r s =
      ({ s with
          runs := s.runs.set r (wrapCursor s.players.length (s.runs.getD r 0)),
          players := s.players.set (wrapCursor s.players.length (s.runs.getD r 0))
            ((p.registerOnEndCallback (.advance r)).startPlayback false),
          events := s.events ++ [.triggerStarted p.id, .playInvoked p.id false] },
       false) := by
  unfold playNext
  simp only [List.getD_eq_getElem?_getD] at h
  simp [h, List.set_set]

theorem endedEvent_eq_none (i : Nat) (s : WState) (h : s.players[i]? = none) :
    endedEvent i s = s := by
  unfold endedEvent
  rw [h]

theorem endedEvent_eq_not_playing (i : Nat) (s : WState) (p : Player)
    (h : s.players[i]? = some p) (hp : p.playing = false) :
    endedEvent i s = s := by
  unfold endedEvent
  rw [h]
  simp [hp]

theorem endedEvent_eq_no_cb (i : Nat) (s : WState) (p : Player)
    (h : s.players[i]? = some p) (hp : p.playing = true)
    (hcb : p.onEndCallback = none) :
    endedEvent i s =
      { s with players := s.players.set i { p with playing := false } } := by
  unfold endedEvent
  rw [h]
  simp [hp, hcb]

theorem endedEvent_eq_cb (i : Nat) (s : WState) (p : Player) (cb : Cb)
    (h : s.players[i]? = some p) (hp : p.playing = true)
    (hcb : p.onEndCallback = some cb) :
    endedEvent i s =
      (if (runCb cb p.id
            { s with players := s.players.set i { p with playing := false } }).2
       then { (runCb cb p.id
                { s with players := s.players.set i { p with playing := false } }).1
              with logs :=
                (runCb cb p.id
                  { s with players := s.players.set i { p with playing := false } }).1.logs
                ++ [.errCallback] }
       else (runCb cb p.id
              { s with players := s.players.set i { p with playing := false } }).1) := by
  unfold endedEvent
  rw [h]
  simp [hp, hcb]

/-- C2: if every attempt up to attempt `k` is rejected with
`NotAllowedError` and an external `stop()` lands during the backoff that
follows attempt `k` (and during no earlier backoff), the pending `play()`
completion resolves as aborted with the `playing` flag false: no playback
started, no attempt beyond the `k+1` already made happens, no fault is
raised (the model is a total function), and no backoff beyond the one the
stop landed in elapses. -/
theorem claim_c2_retry_abort (k : Nat) (outs : List AttemptOutcome)
    (stops : List Bool)
    (hblocked : ∀ j, j ≤ k → outs.getD j .ok = .blocked)
    (hnostop : ∀ j, j < k → stops.getD j true = false)
    (hstop : stops.getD k false = true) :
    attemptPlay true outs stops =
      { playing := false, resolution := .abortedByStop, attempts := k + 1,
        backoffs := k + 1, logs := List.replicate (k + 1) .warnBlocked,
        heldPlaying := false } := by
  induction k generalizing outs stops with
  | zero =>
    cases outs with
    | nil => exact absurd (hblocked 0 (Nat.le_refl 0)) (by decide)
    | cons o outs =>
      have h0 : o = .blocked := by simpa using hblocked 0 (Nat.le_refl 0)
      subst h0
      cases stops with
      | nil => exact absurd hstop (by decide)
      | cons b stops =>
        have hb : b = true := by simpa using hstop
        subst hb
        simp [attemptPlay]
  | succ k ih =>
    cases outs with
    | nil => exact absurd (hblocked 0 (Nat.zero_le _)) (by decide)
    | cons o outs =>
      have h0 : o = .blocked := by simpa using hblocked 0 (Nat.zero_le _)
      subst h0
      cases stops with
      | nil =>
        have hc := hnostop 0 (Nat.succ_pos k)
        simp at hc
      | cons b stops =>
        have hb : b = false := by simpa using hnostop 0 (Nat.succ_pos k)
        subst hb
        have hr := ih outs stops
          (fun j hj => by simpa using hblocked (j + 1) (Nat.succ_le_succ hj))
          (fun j hj => by simpa using hnostop (j + 1) (Nat.succ_lt_succ hj))
          (by simpa using hstop)
        simp [attemptPlay, hr, List.replicate_succ]

theorem claim_c2_retry_abort_witness :
    attemptPlay true [.blocked, .ok] [true] =
      { playing := false, resolution := .abortedByStop, attempts := 1,
        backoffs := 1, logs := List.replicate 1 .warnBlocked,
        heldPlaying := false } :=
  claim_c2_retry_abort 0 [.blocked, .ok] [true]
    (fun j hj => by
      have hj0 : j = 0 := Nat.le_zero.mp hj
      subst hj0
      rfl)
    (fun j hj => absurd hj (Nat.not_lt_zero j))
    rfl

/-- C4: a natural end-of-resource event delivered to a playing unit with a
registered end callback invokes the callback exactly once, with the
`playing` flag cleared before the invocation; a fault raised by the callback
is caught and logged, does not propagate (the listener model is total), and
does not undo the cleared flag; an end event delivered to a non-playing
unit (for example after `stop()`) is ignored entirely, and neither
`widgetStop` nor `pause` can invoke the callback (`widgetStop` emits no
events at all and `pause` touches neither the flag nor the slot). -/
theorem claim_c4_end_callback (s : WState) (i : Nat) (p : Player) (th : Bool)
    (sid : String)
    (hp : s.players[i]? = some p) (hcb : p.onEndCallback = some (.user th)) :
    (p.playing = true →
      (endedEvent i s).events = s.events ++ [.cbInvoked p.id] ∧
      (endedEvent i s).players[i]? = some { p with playing := false } ∧
      (endedEvent i s).logs = s.logs ++ (if th then [.errCallback] else []) ∧
      (endedEvent i s).runs = s.runs) ∧
    (p.playing = false → endedEvent i s = s) ∧
    (widgetStop sid s).events = s.events ∧
    (Player.pause p).playing = p.playing ∧
    (Player.pause p).onEndCallback = p.onEndCallback := by
  refine ⟨?_, ?_, ?_, rfl, rfl⟩
  · intro hplay
    have hlt : i < s.players.length := (List.getElem?_eq_some.mp hp).1
    have he := endedEvent_eq_cb i s p (.user th) hp hplay hcb
    rw [he]
    cases th <;>
      simp [runCb, List.getElem?_set, hlt]
  · intro hplay
    exact endedEvent_eq_not_playing i s p hp hplay
  · unfold widgetStop
    split
    · rfl
    · split
      · rfl
      · rfl

theorem claim_c4_end_callback_witness :
    ((samplePlayer "a" true (some (.user true))).playing = true →
      (endedEvent 0 (initialState [sampleSource "a"]
          [samplePlayer "a" true (some (.user true))])).events =
        (initialState [sampleSource "a"]
          [samplePlayer "a" true (some (.user true))]).events ++
          [.cbInvoked (samplePlayer "a" true (some (.user true))).id] ∧
      (endedEvent 0 (initialState [sampleSource "a"]
          [samplePlayer "a" true (some (.user true))])).players[0]? =
        some { samplePlayer "a" true (some (.user true)) with playing := false } ∧
      (endedEvent 0 (initialState [sampleSource "a"]
          [samplePlayer "a" true (some (.user true))])).logs =
        (initialState [sampleSource "a"]
          [samplePlayer "a" true (some (.user true))]).logs ++
          (if true then [.errCallback] else []) ∧
      (endedEvent 0 (initialState [sampleSource "a"]
          [samplePlayer "a" true (some (.user true))])).runs =
        (initialState [sampleSource "a"]
          [samplePlayer "a" true (some (.user true))]).runs) ∧
    ((samplePlayer "a" true (some (.user true))).playing = false →
      endedEvent 0 (initialState [sampleSource "a"]
          [samplePlayer "a" true (some (.user true))]) =
        initialState [sampleSource "a"]
          [samplePlayer "a" true (some (.user true))]) ∧
    (widgetStop "z" (initialState [sampleSource "a"]
        [samplePlayer "a" true (some (.user true))])).events =
      (initialState [sampleSource "a"]
        [samplePlayer "a" true (some (.user true))]).events ∧
    (Player.pause (samplePlayer "a" true (some (.user true)))).playing =
      (samplePlayer "a" true (some (.user true))).playing ∧
    (Player.pause (samplePlayer "a" true (some (.user true)))).onEndCallback =
      (samplePlayer "a" true (some (.user true))).onEndCallback :=
  claim_c4_end_callback
    (initialState [sampleSource "a"] [samplePlayer "a" true (some (.user true))])
    0 (samplePlayer "a" true (some (.user true))) true "z" rfl rfl

/-- C10: when no managed player has the requested id, the widget entry
points `play(id, loop)` and `stop(id)` log the diagnostic error and return:
no fault is raised (both models are total functions), no player operation is
invoked, and the players, the event trace and every player's state are left
unchanged. -/
theorem claim_c10_unknown_id (s : WState) (id : String) (loop : Bool)
    (h : ∀ p ∈ s.players, p.id ≠ id) :
    widgetPlay id loop s = { s with logs := s.logs ++ [.errNoPlayer id] } ∧
    widgetStop id s = { s with logs := s.logs ++ [.errNoPlayer id] } := by
  have hf : s.players.findIdx? (fun p => p.id == id) = none := by
    rw [List.findIdx?_eq_none_iff]
    intro p hp
    simpa using h p hp
  constructor
  · unfold widgetPlay
    rw [hf]
  · unfold widgetStop
    rw [hf]

theorem claim_c10_unknown_id_witness :
    widgetPlay "missing" false
        (initialState [sampleSource "a"] [samplePlayer "a" false none]) =
      { initialState [sampleSource "a"] [samplePlayer "a" false none] with
        logs := (initialState [sampleSource "a"]
          [samplePlayer "a" false none]).logs ++ [.errNoPlayer "missing"] } ∧
    widgetStop "missing"
        (initialState [sampleSource "a"] [samplePlayer "a" false none]) =
      { initialState [sampleSource "a"] [samplePlayer "a" false none] with
        logs := (initialState [sampleSource "a"]
          [samplePlayer "a" false none]).logs ++ [.errNoPlayer "missing"] } :=
  claim_c10_unknown_id
    (initialState [sampleSource "a"] [samplePlayer "a" false none])
    "missing" false
    (by
      intro p hp
      simp [initialState, samplePlayer] at hp
      subst hp
      decide)

theorem wrapCursor_lt (n c : Nat) (hn : 0 < n) : wrapCursor n c < n := by
  unfold wrapCursor
  split
  · exact hn
  · exact Nat.lt_of_not_le (by assumption)

theorem list_getD_concat_length {α : Type} (l : List α) (a d : α) :
    (l ++ [a]).getD l.length d = a := by
  rw [List.getD_eq_getElem?_getD, List.getElem?_append_right (Nat.le_refl _)]
  simp

theorem playNext_runs (r : Nat) (s : WState) :
    (playNext r s).1.runs =
      s.runs.set r (wrapCursor s.players.length (s.runs.getD r 0)) := by
  unfold playNext
  dsimp only
  split <;> rfl

theorem playNext_snd_false (r : Nat) (s : WState) (h : s.players ≠ []) :
    (playNext r s).2 = false := by
  have hn : 0 < s.players.length := List.length_pos.mpr h
  have hc := wrapCursor_lt s.players.length (s.runs.getD r 0) hn
  obtain ⟨q, hq⟩ : ∃ q,
      s.players[wrapCursor s.players.length (s.runs.getD r 0)]? = some q :=
    ⟨_, List.getElem?_eq_getElem hc⟩
  rw [playNext_eq_some r s q hq]

theorem endedEvent_runs (i : Nat) (t : WState) :
    ∃ r x, (endedEvent i t).runs = t.runs.set r x := by
  cases hti : t.players[i]? with
  | none =>
      exact ⟨t.runs.length, 0, by
        rw [endedEvent_eq_none i t hti, list_set_length_self]⟩
  | some p =>
      cases htp : p.playing with
      | false =>
          exact ⟨t.runs.length, 0, by
            rw [endedEvent_eq_not_playing i t p hti htp, list_set_length_self]⟩
      | true =>
          cases hcb : p.onEndCallback with
          | none =>
              exact ⟨t.runs.length, 0, by
                rw [endedEvent_eq_no_cb i t p hti htp hcb, list_set_length_self]⟩
          | some cb =>
              rw [endedEvent_eq_cb i t p cb hti htp hcb]
              cases cb with
              | triggerEnded sid =>
                  exact ⟨t.runs.length, 0, by
                    simp [runCb, list_set_length_self]⟩
              | user th =>
                  refine ⟨t.runs.length, 0, ?_⟩
                  cases th <;> simp [runCb, list_set_length_self]
              | advance r =>
                  simp only [runCb]
                  refine ⟨r, wrapCursor t.players.length
                    ((t.runs.set r (t.runs.getD r 0 + 1)).getD r 0), ?_⟩
                  split <;>
                  · rw [playNext_runs]
                    simp [List.set_set, List.length_set]

theorem playAsPlaylist_first (s : WState) (hs : s.sources.isEmpty = false)
    (q0 : Player) (hq0 : s.players[0]? = some q0)
    (hn : 0 < s.players.length) :
    (playAsPlaylist s).1.players[0]? =
      some ((q0.registerOnEndCallback (.advance s.runs.length)).startPlayback
        false) := by
  unfold playAsPlaylist
  rw [if_neg (by simp [hs])]
  have hq : ({ s with runs := s.runs ++ [0] } : WState).players[
      wrapCursor ({ s with runs := s.runs ++ [0] } : WState).players.length
        (({ s with runs := s.runs ++ [0] } : WState).runs.getD
          s.runs.length 0)]? = some q0 := by
    show s.players[wrapCursor s.players.length
      ((s.runs ++ [0]).getD s.runs.length 0)]? = some q0
    rw [list_getD_concat_length, wrapCursor_zero]
    exact hq0
  rw [playNext_eq_some s.runs.length _ q0 hq]
  show (s.players.set (wrapCursor s.players.length
    ((s.runs ++ [0]).getD s.runs.length 0))
      ((q0.registerOnEndCallback (.advance s.runs.length)).startPlayback
        false))[0]? = _
  rw [list_getD_concat_length, wrapCursor_zero]
  simp [List.getElem?_set, hn]

/-- C5 counterexample: with a non-empty configured sources list but an empty
players collection (reachable, since a source that fails to resolve during
setup produces no player while staying in `sources`), starting the playlist
is not a faultless no-op: the guard `if (!this.shared.sources?.length)
return` passes, `playNext` reads `players[0]` of the empty collection
(`undefined`) and the call on it throws a TypeError, refuting "starting is a
no-op, raising no fault, whenever the unit collection being played is
empty". -/
theorem claim_c5_counterexample :
    (playAsPlaylist (initialState [sampleSource "a"] [])).2 = true := rfl

/-- C5 (amended): starting the playlist is a no-op — identical state, no
notification, no play invocation, no fault — whenever the configured
`sources` list is empty; the guard tests `sources` rather than the players
collection, and a fault (the out-of-bounds unit access) occurs exactly when
`sources` is non-empty while the players collection is empty.  With a
non-empty players collection the cursor stays in bounds and no fault
occurs. -/
theorem claim_c5_empty_guard (s : WState) :
    (s.sources = [] → playAsPlaylist s = (s, false)) ∧
    ((playAsPlaylist s).2 = true ↔ s.sources ≠ [] ∧ s.players = []) := by
  constructor
  · intro h
    unfold playAsPlaylist
    simp [h]
  · constructor
    · intro hfault
      constructor
      · intro hnil
        unfold playAsPlaylist at hfault
        simp [hnil] at hfault
      · by_contra hne
        have hok := playNext_snd_false s.runs.length
          { s with runs := s.runs ++ [0] } (by simpa using hne)
        unfold playAsPlaylist at hfault
        cases hsrc : s.sources.isEmpty with
        | true => rw [hsrc] at hfault; simp at hfault
        | false =>
            rw [hsrc] at hfault
            simp at hfault
            rw [hok] at hfault
            exact Bool.false_ne_true hfault
    · rintro ⟨hs, hp⟩
      have hsrcF : s.sources.isEmpty = false := by
        cases hsrc : s.sources with
        | nil => exact absurd hsrc hs
        | cons a l => simp
      unfold playAsPlaylist
      rw [if_neg (by simp [hsrcF])]
      have hnone : ({ s with runs := s.runs ++ [0] } : WState).players[
          wrapCursor ({ s with runs := s.runs ++ [0] } : WState).players.length
            (({ s with runs := s.runs ++ [0] } : WState).runs.getD
              s.runs.length 0)]? = none := by
        show s.players[wrapCursor s.players.length
          ((s.runs ++ [0]).getD s.runs.length 0)]? = none
        rw [hp]
        simp
      rw [playNext_eq_none s.runs.length _ hnone]

theorem claim_c5_empty_guard_witness :
    playAsPlaylist (initialState [] [samplePlayer "a" false none]) =
      (initialState [] [samplePlayer "a" false none], false) :=
  (claim_c5_empty_guard (initialState [] [samplePlayer "a" false none])).1 rfl

/-- C8: `registerOnEndCallback` is a single-slot, last-write-wins
registration; invoking `playAsPlaylist` again on a widget state (in
particular one already mid-playlist) replaces the armed advancement handler
of the affected unit (index 0, where every fresh run starts) with the
advancement closure of the new run, so the unit holds exactly one handler;
and any natural end event delivered to any unit advances the cursor of at
most one run (the single stored closure can touch only the one run it
captured). -/
theorem claim_c8_rearm (p : Player) (cb : Cb) (s t : WState) (i : Nat)
    (hs : s.sources ≠ []) (hp : s.players ≠ []) :
    (p.registerOnEndCallback cb).onEndCallback = some cb ∧
    (∃ q, (playAsPlaylist s).1.players[0]? = some q ∧
        q.onEndCallback = some (.advance s.runs.length) ∧
        q.playing = true) ∧
    (∃ r x, (endedEvent i t).runs = t.runs.set r x) := by
  refine ⟨rfl, ?_, endedEvent_runs i t⟩
  have hsrcF : s.sources.isEmpty = false := by
    cases hsrc : s.sources with
    | nil => exact absurd hsrc hs
    | cons a l => simp
  have hn : 0 < s.players.length := List.length_pos.mpr hp
  obtain ⟨q0, hq0⟩ : ∃ q0, s.players[0]? = some q0 :=
    ⟨_, List.getElem?_eq_getElem hn⟩
  exact ⟨_, playAsPlaylist_first s hsrcF q0 hq0 hn, rfl, rfl⟩

theorem claim_c8_rearm_witness :
    ((samplePlayer "b" false none).registerOnEndCallback
        (.user false)).onEndCallback = some (.user false) ∧
    (∃ q, (playAsPlaylist (playAsPlaylist (initialState [sampleSource "a"]
          [samplePlayer "a" false none])).1).1.players[0]? = some q ∧
        q.onEndCallback = some (.advance (playAsPlaylist (initialState
          [sampleSource "a"] [samplePlayer "a" false none])).1.runs.length) ∧
        q.playing = true) ∧
    (∃ r x, (endedEvent 0 (playAsPlaylist (initialState [sampleSource "a"]
          [samplePlayer "a" false none])).1).runs =
        (playAsPlaylist (initialState [sampleSource "a"]
          [samplePlayer "a" false none])).1.runs.set r x) :=
  claim_c8_rearm (samplePlayer "b" false none) (.user false)
    (playAsPlaylist (initialState [sampleSource "a"]
      [samplePlayer "a" false none])).1
    (playAsPlaylist (initialState [sampleSource "a"]
      [samplePlayer "a" false none])).1
    0 (by decide) (by decide)

theorem seqInv_start (srcs : List AudioSource) (ps : List Player)
    (hs : srcs ≠ []) (hp : ps ≠ []) :
    (playAsPlaylist (initialState srcs ps)).2 = false ∧
    seqInv ps 0 (playAsPlaylist (initialState srcs ps)).1 := by
  have hsrcF : srcs.isEmpty = false := by
    cases hsrc2 : srcs with
    | nil => exact absurd hsrc2 hs
    | cons a l => simp
  have hn : 0 < ps.length := List.length_pos.mpr hp
  obtain ⟨p0, hp0⟩ : ∃ p0, ps[0]? = some p0 :=
    ⟨_, List.getElem?_eq_getElem hn⟩
  have hq : (startState srcs ps).players[
      wrapCursor (startState srcs ps).players.length
        ((startState srcs ps).runs.getD 0 0)]? = some p0 := by
    show ps[wrapCursor ps.length (([0] : List Nat).getD 0 0)]? = some p0
    rw [show (([0] : List Nat).getD 0 0) = 0 from rfl, wrapCursor_zero]
    exact hp0
  have heq : playAsPlaylist (initialState srcs ps) =
      ({ sources := srcs,
         players := ps.set (wrapCursor ps.length (([0] : List Nat).getD 0 0))
           ((p0.registerOnEndCallback (.advance 0)).startPlayback false),
         runs := ([0] : List Nat).set 0
           (wrapCursor ps.length (([0] : List Nat).getD 0 0)),
         events := [] ++ [.triggerStarted p0.id, .playInvoked p0.id false],
         logs := [] }, false) := by
    unfold playAsPlaylist initialState
    rw [if_neg (by simp [hsrcF])]
    exact playNext_eq_some 0 (startState srcs ps) p0 hq
  have hw : wrapCursor ps.length (([0] : List Nat).getD 0 0) = 0 :=
    wrapCursor_zero ps.length
  have hid0 : (ps.map Player.id).getD 0 "" = p0.id := by
    rw [List.getD_eq_getElem?_getD, List.getElem?_map, hp0]
    rfl
  refine ⟨by rw [heq], ?_⟩
  rw [heq]
  unfold seqInv
  refine ⟨?_, ?_, ?_, ?_, ?_⟩
  · simp [List.length_set]
  · intro j
    rw [hw, List.getElem?_set]
    by_cases h0 : 0 = j
    · rw [if_pos h0, if_pos hn]
      rw [← h0, hp0]
      rfl
    · rw [if_neg h0]
  · rw [hw]
    simp
  · simp [cycleEvents, hp0]
  · refine ⟨(p0.registerOnEndCallback (.advance 0)).startPlayback false,
      ?_, rfl, rfl, ?_⟩
    · rw [hw]
      simp [List.getElem?_set, Nat.zero_mod, hn]
    · show p0.id = (ps.map Player.id).getD (0 % ps.length) ""
      rw [Nat.zero_mod, hid0]

theorem seqInv_step (ps : List Player) (hp : ps ≠ []) (k : Nat) (s : WState)
    (h : seqInv ps k s) :
    seqInv ps (k + 1) (endedEvent (k % ps.length) s) := by
  obtain ⟨hlen, hids, hruns, hev, q, hq, hqp, hqcb, hqid⟩ := h
  obtain ⟨src, pl, ru, ev, lg⟩ := s
  dsimp only at hlen hids hruns hev hq ⊢
  subst hruns
  subst hev
  have hnpos : 0 < ps.length := List.length_pos.mpr hp
  have hklt : k % ps.length < ps.length := Nat.mod_lt k hnpos
  have hk1lt : (k + 1) % ps.length < ps.length := Nat.mod_lt (k + 1) hnpos
  have hplset : ∀ j : Nat,
      ((pl.set (k % ps.length) { q with playing := false })[j]?).map Player.id
        = (ps[j]?).map Player.id := by
    intro j
    rw [List.getElem?_set]
    by_cases hj : k % ps.length = j
    · rw [if_pos hj, if_pos (by rw [hlen]; exact hklt)]
      have h1 := hids j
      rw [← hj] at h1
      rw [hq] at h1
      rw [← hj, ← h1]
      rfl
    · rw [if_neg hj]
      exact hids j
  obtain ⟨pn, hpn⟩ : ∃ pn,
      (pl.set (k % ps.length) { q with playing := false })[
        (k + 1) % ps.length]? = some pn :=
    ⟨_, List.getElem?_eq_getElem (by rw [List.length_set, hlen]; exact hk1lt)⟩
  have hpnid : pn.id = (ps.map Player.id).getD ((k + 1) % ps.length) "" := by
    have h2 := hplset ((k + 1) % ps.length)
    rw [hpn] at h2
    rw [List.getD_eq_getElem?_getD, List.getElem?_map, ← h2]
    rfl
  rw [endedEvent_eq_cb (k % ps.length)
    (⟨src, pl, [k % ps.length], cycleEvents (ps.map Player.id) k, lg⟩ : WState)
    q (.advance 0) hq hqp hqcb]
  dsimp only
  simp only [runCb]
  have hpn2 : ((⟨src, pl.set (k % ps.length) { q with playing := false },
      ([k % ps.length] : List Nat).set 0
        (([k % ps.length] : List Nat).getD 0 0 + 1),
      cycleEvents (ps.map Player.id) k ++ [Ev.triggerEnded q.id], lg⟩ :
        WState)).players[
      wrapCursor ((⟨src, pl.set (k % ps.length) { q with playing := false },
        ([k % ps.length] : List Nat).set 0
          (([k % ps.length] : List Nat).getD 0 0 + 1),
        cycleEvents (ps.map Player.id) k ++ [Ev.triggerEnded q.id], lg⟩ :
          WState)).players.length
        (((⟨src, pl.set (k % ps.length) { q with playing := false },
          ([k % ps.length] : List Nat).set 0
            (([k % ps.length] : List Nat).getD 0 0 + 1),
          cycleEvents (ps.map Player.id) k ++ [Ev.triggerEnded q.id], lg⟩ :
            WState)).runs.getD 0 0)]? = some pn := by
    show (pl.set (k % ps.length) { q with playing := false })[
      wrapCursor (pl.set (k % ps.length) { q with playing := false }).length
        ((([k % ps.length] : List Nat).set 0
          (([k % ps.length] : List Nat).getD 0 0 + 1)).getD 0 0)]? = some pn
    rw [List.length_set, hlen,
      show ((([k % ps.length] : List Nat).set 0
        (([k % ps.length] : List Nat).getD 0 0 + 1)).getD 0 0)
        = k % ps.length + 1 from rfl,
      wrapCursor_mod ps.length k hnpos]
    exact hpn
  rw [playNext_eq_some 0 _ pn hpn2]
  dsimp only
  rw [if_neg Bool.false_ne_true]
  have hWeq : wrapCursor
      (pl.set (k % ps.length) { q with playing := false }).length
      ((([k % ps.length] : List Nat).set 0
        (([k % ps.length] : List Nat).getD 0 0 + 1)).getD 0 0)
      = (k + 1) % ps.length := by
    rw [List.length_set, hlen,
      show ((([k % ps.length] : List Nat).set 0
        (([k % ps.length] : List Nat).getD 0 0 + 1)).getD 0 0)
        = k % ps.length + 1 from rfl,
      wrapCursor_mod ps.length k hnpos]
  rw [hWeq]
  unfold seqInv
  refine ⟨?_, ?_, ?_, ?_, ?_⟩
  · dsimp only
    rw [List.length_set, List.length_set, hlen]
  · intro j
    dsimp only
    rw [List.getElem?_set]
    by_cases hj : (k + 1) % ps.length = j
    · rw [if_pos hj,
        if_pos (by rw [List.length_set, hlen]; exact hk1lt)]
      have h3 := hplset j
      rw [← hj] at h3
      rw [hpn] at h3
      rw [← hj, ← h3]
      rfl
    · rw [if_neg hj]
      exact hplset j
  · dsimp only
    rfl
  · dsimp only
    rw [hqid, hpnid]
    simp [cycleEvents, List.length_map, List.append_assoc]
  · refine ⟨(pn.registerOnEndCallback (.advance 0)).startPlayback false,
      ?_, rfl, rfl, ?_⟩
    · dsimp only
      rw [List.getElem?_set, if_pos rfl,
        if_pos (by rw [List.length_set, hlen]; exact hk1lt)]
    · exact hpnid

theorem seqInv_drive (ps : List Player) (hp : ps ≠ []) (j : Nat) :
    ∀ (k : Nat) (s : WState), seqInv ps k s →
      seqInv ps (k + j) (driveEnds j s) := by
  induction j with
  | zero => exact fun k s h => h
  | succ j ih =>
      intro k s h
      have hcur : s.runs.getD 0 0 = k % ps.length := by
        rw [h.2.2.1]
        rfl
      show seqInv ps (k + (j + 1))
        (driveEnds j (endedEvent (s.runs.getD 0 0) s))
      rw [hcur, show k + (j + 1) = (k + 1) + j from by omega]
      exact ih (k + 1) _ (seqInv_step ps hp k s h)

/-- C1: starting the playlist on a non-empty source configuration and a
non-empty unit collection raises no fault, and after `k` natural
end-of-resource events, each delivered to the unit at the cursor, the run
cursor equals `k % n` (always in `[0, n)`, wrapping to 0 after the last
unit finishes), and the whole event trace is the cyclic pattern
started(u 0), play(u 0), ended(u 0), started(u 1), play(u 1), …, with every
unit's "source started" notification emitted before its `play()` invocation
and every `play()` invoked non-looping. -/
theorem claim_c1_playlist_cycle (srcs : List AudioSource) (ps : List Player)
    (hs : srcs ≠ []) (hp : ps ≠ []) (k : Nat) :
    (playAsPlaylist (initialState srcs ps)).2 = false ∧
    (driveEnds k (playAsPlaylist (initialState srcs ps)).1).runs
      = [k % ps.length] ∧
    k % ps.length < ps.length ∧
    (driveEnds k (playAsPlaylist (initialState srcs ps)).1).events
      = cycleEvents (ps.map Player.id) k := by
  obtain ⟨hsnd, hinv0⟩ := seqInv_start srcs ps hs hp
  have h := seqInv_drive ps hp k 0 _ hinv0
  rw [Nat.zero_add] at h
  exact ⟨hsnd, h.2.2.1, Nat.mod_lt k (List.length_pos.mpr hp),
    h.2.2.2.1⟩

theorem claim_c1_playlist_cycle_witness :
    (playAsPlaylist (initialState [sampleSource "a"]
      [samplePlayer "a" false none, samplePlayer "b" false none,
       samplePlayer "c" false none])).2 = false ∧
    (driveEnds 7 (playAsPlaylist (initialState [sampleSource "a"]
      [samplePlayer "a" false none, samplePlayer "b" false none,
       samplePlayer "c" false none])).1).runs = [7 % 3] ∧
    7 % 3 < 3 ∧
    (driveEnds 7 (playAsPlaylist (initialState [sampleSource "a"]
      [samplePlayer "a" false none, samplePlayer "b" false none,
       samplePlayer "c" false none])).1).events
      = cycleEvents ([samplePlayer "a" false none,
          samplePlayer "b" false none,
          samplePlayer "c" false none].map Player.id) 7 :=
  claim_c1_playlist_cycle [sampleSource "a"]
    [samplePlayer "a" false none, samplePlayer "b" false none,
     samplePlayer "c" false none] (by decide) (by decide) 7
